import Mathlib

/-!
Shallow embedding of the bimg native binding (src/vips.go) for the bimg
image-processing library, together with theorems settling the spec claims.

Each Go wrapper around a libvips primitive is embedded as a pure Lean
function.  Native (C-side) behaviour that the Go code merely invokes —
whether a primitive succeeds, the fresh handle it produces, the sniffed
loader name, the current error-buffer text — is passed in as explicit
oracle parameters.  Every wrapper additionally returns the list of
observable native-side actions it performs, in program order: native
calls with their scalar arguments, read-only queries on a handle,
g_object_unref of a handle, and C.free of an allocated C string.  Handle
lifecycle, error-buffer discipline and call ordering are then provable
properties of these event traces.
-/

namespace Bimg

/-- A native image handle (a `*C.struct__VipsImage` pointer), modelled as a
numeric identity. -/
abbrev Handle := Nat

/-- The native functions invoked by src/vips.go, named after the C symbols. -/
inductive NativeFn where
  | vips_init
  | vips_cache_set_max_mem
  | vips_cache_set_max
  | vips_concurrency_set
  | vips_enable_cache_set_trace
  | vips_shutdown
  | vips_rotate
  | vips_flip_bridge
  | vips_zoom_bridge
  | vips_watermark
  | vips_init_image
  | vips_colourspace_issupported_bridge
  | vips_image_guess_interpretation_bridge
  | remove_profile
  | vips_colourspace_bridge
  | vips_webpsave_bridge
  | vips_pngsave_bridge
  | vips_jpegsave_bridge
  | vips_extract_area_bridge
  | vips_jpegload_buffer_shrink
  | vips_shrink_bridge
  | vips_embed_bridge
  | vips_interpolate_new
  | vips_affine_interpolator
  | vips_error_buffer
  | vips_error_clear
  | vips_thread_shutdown
  | g_free
  deriving DecidableEq

/-- An observable native-side action performed by the Go binding.
`call` is a native invocation with its scalar arguments; `use` is a
read-only query that dereferences a handle; `unref` is
`g_object_unref` on a handle; `cfree` is `C.free` of a C string. -/
inductive Event where
  | call (fn : NativeFn) (args : List Int)
  | use (fn : NativeFn) (h : Handle)
  | unref (h : Handle)
  | cfree (tag : String)
  deriving DecidableEq

/-- The libvips error-buffer state (the text `vips_error_buffer` returns). -/
structure ErrState where
  buffer : String
  deriving DecidableEq

/-- Outcome of a fallible native primitive: a fresh output handle, or failure. -/
inductive NativeOutcome where
  | ok (out : Handle)
  | fail
  deriving DecidableEq

/-- Embedding of catchVipsError (src/vips.go:419-424): read the error
buffer, clear native error state, shut the worker thread down, and turn
the text into a Go error. -/
def catchVipsError (err : ErrState) : String × ErrState × List Event :=
  (err.buffer, { buffer := "" },
    [Event.call NativeFn.vips_error_buffer [],
     Event.call NativeFn.vips_error_clear [],
     Event.call NativeFn.vips_thread_shutdown []])

/-- Embedding of boolToInt (src/vips.go:426-431). -/
def boolToInt (b : Bool) : Int := if b then 1 else 0

/-- Embedding of vipsRotate (src/vips.go:145-155).  The deferred
`g_object_unref(image)` runs on every exit path, after the error is
caught on the failure path. -/
def vipsRotate (image : Handle) (angle : Int) (outcome : NativeOutcome)
    (err : ErrState) : Except String Handle × ErrState × List Event :=
  match outcome with
  | NativeOutcome.ok out =>
      (Except.ok out, err,
        [Event.call NativeFn.vips_rotate [angle], Event.unref image])
  | NativeOutcome.fail =>
      let r := catchVipsError err
      (Except.error r.1, r.2.1,
        Event.call NativeFn.vips_rotate [angle] :: r.2.2 ++ [Event.unref image])

/-- Embedding of vipsFlip (src/vips.go:157-167). -/
def vipsFlip (image : Handle) (direction : Int) (outcome : NativeOutcome)
    (err : ErrState) : Except String Handle × ErrState × List Event :=
  match outcome with
  | NativeOutcome.ok out =>
      (Except.ok out, err,
        [Event.call NativeFn.vips_flip_bridge [direction], Event.unref image])
  | NativeOutcome.fail =>
      let r := catchVipsError err
      (Except.error r.1, r.2.1,
        Event.call NativeFn.vips_flip_bridge [direction] :: r.2.2 ++ [Event.unref image])

/-- Embedding of vipsZoom (src/vips.go:169-179). -/
def vipsZoom (image : Handle) (zoom : Int) (outcome : NativeOutcome)
    (err : ErrState) : Except String Handle × ErrState × List Event :=
  match outcome with
  | NativeOutcome.ok out =>
      (Except.ok out, err,
        [Event.call NativeFn.vips_zoom_bridge [zoom, zoom], Event.unref image])
  | NativeOutcome.fail =>
      let r := catchVipsError err
      (Except.error r.1, r.2.1,
        Event.call NativeFn.vips_zoom_bridge [zoom, zoom] :: r.2.2 ++ [Event.unref image])

/-- Watermark options consumed by vipsWatermark.  Modelled from the spec:
the `Watermark` record is declared outside src/ (§4.3: text, font, width,
DPI, margin, opacity, background colour, and a no-replicate toggle).  The
float opacity and RGB background are opaque numeric payloads to every
claim and are modelled as integers. -/
structure Watermark where
  Text : String
  Font : String
  Width : Int
  DPI : Int
  Margin : Int
  Opacity : Int
  BackgroundR : Int
  BackgroundG : Int
  BackgroundB : Int
  NoReplicate : Bool
  deriving DecidableEq

/-- Modelled from the spec: the C bridge `vips_watermark` is declared in
vips.h, which is not under src/.  Per §4.1 the binding releases input
handles it owns on failure as well as success, so the modelled native
call consumes (releases) its input exactly once on both outcomes. -/
def vipsWatermarkNative (image : Handle) (noReplicate : Int) : List Event :=
  [Event.call NativeFn.vips_watermark [noReplicate], Event.unref image]

/-- Embedding of vipsWatermark (src/vips.go:181-206).  The Go wrapper
allocates C strings for text and font and defers freeing them (defers
run in LIFO order: font, then text); the native call itself is the
spec-modelled `vipsWatermarkNative`. -/
def vipsWatermark (image : Handle) (w : Watermark) (outcome : NativeOutcome)
    (err : ErrState) : Except String Handle × ErrState × List Event :=
  let noReplicate : Int := if w.NoReplicate then 1 else 0
  match outcome with
  | NativeOutcome.ok out =>
      (Except.ok out, err,
        vipsWatermarkNative image noReplicate ++ [Event.cfree "font", Event.cfree "text"])
  | NativeOutcome.fail =>
      let r := catchVipsError err
      (Except.error r.1, r.2.1,
        vipsWatermarkNative image noReplicate ++ r.2.2 ++ [Event.cfree "font", Event.cfree "text"])

/-- The closed set of detected image formats (declared outside src/ in the
repository; the constructors are exactly the values src/vips.go uses). -/
inductive ImageType where
  | UNKNOWN
  | JPEG
  | WEBP
  | PNG
  | TIFF
  | MAGICK
  deriving DecidableEq

/-- Go's strings.HasSuffix, on the character data of the two strings. -/
def goHasSuffix (s suffix : String) : Bool :=
  List.isSuffixOf suffix.data s.data

/-- Embedding of vipsImageType (src/vips.go:387-417).  `bufferType` is the
loader-operation name the native sniffer `vips_foreign_find_load_buffer`
reports for the buffer ("" when the sniffer returns NULL); the sniffer is
only consulted when the buffer is non-empty. -/
def vipsImageType (bufLen : Nat) (bufferType : String) : ImageType :=
  if bufLen = 0 then ImageType.UNKNOWN
  else if goHasSuffix bufferType "JpegBuffer" then ImageType.JPEG
  else if goHasSuffix bufferType "PngBuffer" then ImageType.PNG
  else if goHasSuffix bufferType "TiffBuffer" then ImageType.TIFF
  else if goHasSuffix bufferType "WebpBuffer" then ImageType.WEBP
  else if goHasSuffix bufferType "MagickBuffer" then ImageType.MAGICK
  else ImageType.UNKNOWN

/-- Embedding of vipsRead (src/vips.go:208-225).  Returns the Go result
(handle-or-error plus the reported ImageType), the error-buffer state and
the event trace.  On an UNKNOWN sniff no native call is made at all. -/
def vipsRead (bufLen : Nat) (bufferType : String) (outcome : NativeOutcome)
    (err : ErrState) :
    Except String Handle × ImageType × ErrState × List Event :=
  let imageType := vipsImageType bufLen bufferType
  if imageType = ImageType.UNKNOWN then
    (Except.error "Unsupported image format", ImageType.UNKNOWN, err, [])
  else
    match outcome with
    | NativeOutcome.ok image =>
        (Except.ok image, imageType, err, [Event.call NativeFn.vips_init_image []])
    | NativeOutcome.fail =>
        let r := catchVipsError err
        (Except.error r.1, ImageType.UNKNOWN, r.2.1,
          Event.call NativeFn.vips_init_image [] :: r.2.2)

/-- Embedding of vipsColourspaceIsSupported (src/vips.go:236-238); the
query result is the oracle `supported`, and the handle is dereferenced. -/
def vipsColourspaceIsSupported (image : Handle) (supported : Bool) :
    Bool × List Event :=
  (supported, [Event.use NativeFn.vips_colourspace_issupported_bridge image])

/-- Embedding of vipsColourspaceIsSupportedBuffer (src/vips.go:227-234):
read the buffer, `g_object_unref` the handle, then run the colourspace
query on that same handle. -/
def vipsColourspaceIsSupportedBuffer (bufLen : Nat) (bufferType : String)
    (outcome : NativeOutcome) (supported : Bool) (err : ErrState) :
    Except String Bool × ErrState × List Event :=
  match vipsRead bufLen bufferType outcome err with
  | (Except.error msg, _, err2, evs) => (Except.error msg, err2, evs)
  | (Except.ok image, _, err2, evs) =>
      let q := vipsColourspaceIsSupported image supported
      (Except.ok q.1, err2, evs ++ [Event.unref image] ++ q.2)

/-- Colour interpretations, as in the repository's enum mirror of
VipsInterpretation (declared outside src/): integer-valued, with
INTERPRETATION_ERROR = -1 and INTERPRETATION_sRGB = 22. -/
abbrev Interpretation := Int

def INTERPRETATION_ERROR : Interpretation := -1

def INTERPRETATION_sRGB : Interpretation := 22

/-- Embedding of vipsInterpretation (src/vips.go:249-251); the guessed
interpretation is the oracle `guessed`, and the handle is dereferenced. -/
def vipsInterpretation (image : Handle) (guessed : Interpretation) :
    Interpretation × List Event :=
  (guessed, [Event.use NativeFn.vips_image_guess_interpretation_bridge image])

/-- Embedding of vipsInterpretationBuffer (src/vips.go:240-247): read the
buffer, `g_object_unref` the handle, then guess the interpretation on
that same handle.  On a read error the reported interpretation is
INTERPRETATION_ERROR. -/
def vipsInterpretationBuffer (bufLen : Nat) (bufferType : String)
    (outcome : NativeOutcome) (guessed : Interpretation) (err : ErrState) :
    (Interpretation × Option String) × ErrState × List Event :=
  match vipsRead bufLen bufferType outcome err with
  | (Except.error msg, _, err2, evs) => ((INTERPRETATION_ERROR, some msg), err2, evs)
  | (Except.ok image, _, err2, evs) =>
      let q := vipsInterpretation image guessed
      ((q.1, none), err2, evs ++ [Event.unref image] ++ q.2)

/-- Embedding of vipsSaveOptions (src/vips.go:34-41).  The Go field `Type`
is rendered `typ` because `Type` is reserved in Lean. -/
structure vipsSaveOptions where
  Quality : Int
  Compression : Int
  typ : ImageType
  Interlace : Bool
  NoProfile : Bool
  Interpretation : Interpretation
  deriving DecidableEq

/-- Embedding of vipsPreSave (src/vips.go:253-277).  It receives the
options through a pointer; the returned options value is the final
contents of that pointed-to record.  `csSupported` is the oracle result
of the native colourspace-supported query, `convOutcome` the outcome of
the colourspace conversion. -/
def vipsPreSave (image : Handle) (o : vipsSaveOptions) (csSupported : Bool)
    (convOutcome : NativeOutcome) (err : ErrState) :
    Except String Handle × vipsSaveOptions × ErrState × List Event :=
  let evs0 := if o.NoProfile then [Event.call NativeFn.remove_profile []] else []
  let o2 := if o.Interpretation = 0 then
      { o with Interpretation := INTERPRETATION_sRGB } else o
  let checkEv := Event.use NativeFn.vips_colourspace_issupported_bridge image
  if csSupported then
    match convOutcome with
    | NativeOutcome.ok outImage =>
        (Except.ok outImage, o2, err,
          evs0 ++ [checkEv,
            Event.call NativeFn.vips_colourspace_bridge [o2.Interpretation],
            Event.unref image])
    | NativeOutcome.fail =>
        let r := catchVipsError err
        (Except.error r.1, o2, r.2.1,
          evs0 ++ [checkEv,
            Event.call NativeFn.vips_colourspace_bridge [o2.Interpretation]] ++ r.2.2)
  else
    (Except.ok image, o2, err, evs0 ++ [checkEv])

/-- Embedding of vipsSave (src/vips.go:279-316).  The deferred
`g_object_unref(C.gpointer(image))` evaluates its argument when the defer
statement executes, so it always targets the original input handle, even
after `image` is rebound to vipsPreSave's result.  `saveOk` is the oracle
outcome of the chosen encoder, `savedBytes` the bytes it produces. -/
def vipsSave (image : Handle) (o : vipsSaveOptions) (csSupported : Bool)
    (convOutcome : NativeOutcome) (saveOk : Bool) (savedBytes : List Nat)
    (err : ErrState) : Except String (List Nat) × ErrState × List Event :=
  let deferred := image
  match vipsPreSave image o csSupported convOutcome err with
  | (Except.error msg, _, err2, evs) =>
      (Except.error msg, err2, evs ++ [Event.unref deferred])
  | (Except.ok image2, o2, err2, evs) =>
      let _ := image2
      let interlace := boolToInt o2.Interlace
      let quality := o2.Quality
      let encoder : Event :=
        match o2.typ with
        | ImageType.WEBP => Event.call NativeFn.vips_webpsave_bridge [quality]
        | ImageType.PNG =>
            Event.call NativeFn.vips_pngsave_bridge [o2.Compression, quality, interlace]
        | _ => Event.call NativeFn.vips_jpegsave_bridge [quality, interlace]
      if saveOk then
        (Except.ok savedBytes, { buffer := "" },
          evs ++ [encoder, Event.call NativeFn.g_free [],
            Event.call NativeFn.vips_error_clear [], Event.unref deferred])
      else
        let r := catchVipsError err2
        (Except.error r.1, r.2.1, evs ++ [encoder] ++ r.2.2 ++ [Event.unref deferred])

/-- Modelled from the spec: the maximum supported edge length bound
(MAX_SIZE) referenced by vipsExtract is declared outside src/; §3 fixes
it as "a maximum supported edge length" and the upstream constant is
16383. -/
def MAX_SIZE : Int := 16383

/-- Embedding of vipsExtract (src/vips.go:318-332): the size bound is
checked before the native extract primitive; the deferred unref of the
input still runs on the early return. -/
def vipsExtract (image : Handle) (left top width height : Int)
    (outcome : NativeOutcome) (err : ErrState) :
    Except String Handle × ErrState × List Event :=
  if width > MAX_SIZE ∨ height > MAX_SIZE then
    (Except.error "Maximum image size exceeded", err, [Event.unref image])
  else
    match outcome with
    | NativeOutcome.ok out =>
        (Except.ok out, err,
          [Event.call NativeFn.vips_extract_area_bridge [left, top, width, height],
           Event.unref image])
    | NativeOutcome.fail =>
        let r := catchVipsError err
        (Except.error r.1, r.2.1,
          Event.call NativeFn.vips_extract_area_bridge [left, top, width, height]
            :: r.2.2 ++ [Event.unref image])

/-- Embedding of vipsShrinkJpeg (src/vips.go:334-344). -/
def vipsShrinkJpeg (input : Handle) (shrink : Int) (outcome : NativeOutcome)
    (err : ErrState) : Except String Handle × ErrState × List Event :=
  match outcome with
  | NativeOutcome.ok out =>
      (Except.ok out, err,
        [Event.call NativeFn.vips_jpegload_buffer_shrink [shrink], Event.unref input])
  | NativeOutcome.fail =>
      let r := catchVipsError err
      (Except.error r.1, r.2.1,
        Event.call NativeFn.vips_jpegload_buffer_shrink [shrink]
          :: r.2.2 ++ [Event.unref input])

/-- Embedding of vipsShrink (src/vips.go:346-356). -/
def vipsShrink (input : Handle) (shrink : Int) (outcome : NativeOutcome)
    (err : ErrState) : Except String Handle × ErrState × List Event :=
  match outcome with
  | NativeOutcome.ok out =>
      (Except.ok out, err,
        [Event.call NativeFn.vips_shrink_bridge [shrink, shrink], Event.unref input])
  | NativeOutcome.fail =>
      let r := catchVipsError err
      (Except.error r.1, r.2.1,
        Event.call NativeFn.vips_shrink_bridge [shrink, shrink]
          :: r.2.2 ++ [Event.unref input])

/-- Embedding of vipsEmbed (src/vips.go:358-368). -/
def vipsEmbed (input : Handle) (left top width height extend : Int)
    (outcome : NativeOutcome) (err : ErrState) :
    Except String Handle × ErrState × List Event :=
  match outcome with
  | NativeOutcome.ok out =>
      (Except.ok out, err,
        [Event.call NativeFn.vips_embed_bridge [left, top, width, height, extend],
         Event.unref input])
  | NativeOutcome.fail =>
      let r := catchVipsError err
      (Except.error r.1, r.2.1,
        Event.call NativeFn.vips_embed_bridge [left, top, width, height, extend]
          :: r.2.2 ++ [Event.unref input])

/-- Embedding of vipsAffine (src/vips.go:370-385).  `interp` is the
interpolator object `vips_interpolate_new` returns; the three defers run
in LIFO order (unref interpolator, unref input, free the C string). -/
def vipsAffine (input : Handle) (interp : Handle) (outcome : NativeOutcome)
    (err : ErrState) : Except String Handle × ErrState × List Event :=
  match outcome with
  | NativeOutcome.ok out =>
      (Except.ok out, err,
        [Event.call NativeFn.vips_interpolate_new [],
         Event.call NativeFn.vips_affine_interpolator [],
         Event.unref interp, Event.unref input, Event.cfree "interpolator"])
  | NativeOutcome.fail =>
      let r := catchVipsError err
      (Except.error r.1, r.2.1,
        [Event.call NativeFn.vips_interpolate_new [],
         Event.call NativeFn.vips_affine_interpolator []]
          ++ r.2.2
          ++ [Event.unref interp, Event.unref input, Event.cfree "interpolator"])

/-- Embedding of the `initialized` flag (src/vips.go:23-26): the process
lifecycle has a boolean state. -/
structure LifecycleState where
  initialized : Bool
  deriving DecidableEq

/-- Embedding of maxCacheMem (src/vips.go:19). -/
def maxCacheMem : Int := 100 * 1024 * 1024

/-- Embedding of maxCacheSize (src/vips.go:20). -/
def maxCacheSize : Int := 500

/-- Embedding of the exported lifecycle start function (src/vips.go:63-94,
named `Initialize` in Go).  The compile-time libvips version check and
the panic on vips_init failure terminate the process and lie outside the
returned behaviour; the mutex and OS-thread pinning are concurrency
plumbing with no per-call observable effect.  `envConcurrency` and
`envTrace` are the VIPS_CONCURRENCY and VIPS_TRACE environment values
("" when unset).  Note there is no already-initialized check: the body
runs in full regardless of the prior state. -/
def Startup (envConcurrency envTrace : String) (s : LifecycleState) :
    LifecycleState × List Event :=
  let _ := s
  let evs :=
    [Event.call NativeFn.vips_init [],
     Event.call NativeFn.vips_cache_set_max_mem [maxCacheMem],
     Event.call NativeFn.vips_cache_set_max [maxCacheSize]]
  let evs := evs ++
    (if envConcurrency = "" then [Event.call NativeFn.vips_concurrency_set [1]] else [])
  let evs := evs ++
    (if envTrace ≠ "" then [Event.call NativeFn.vips_enable_cache_set_trace []] else [])
  ({ initialized := true }, evs)

/-- Embedding of Shutdown (src/vips.go:99-107): only acts when the flag
is set. -/
def Shutdown (s : LifecycleState) : LifecycleState × List Event :=
  if s.initialized then
    ({ initialized := false }, [Event.call NativeFn.vips_shutdown []])
  else
    (s, [])

/-- Scans a trace for a read-only query on a handle that was already
unreffed earlier in the trace; `released` accumulates released handles. -/
def usesAfterRelease : List Event → List Handle → Bool
  | [], _ => false
  | Event.unref h :: rest, released => usesAfterRelease rest (h :: released)
  | Event.use _ h :: rest, released =>
      released.contains h || usesAfterRelease rest released
  | _ :: rest, released => usesAfterRelease rest released

/-- The encoder invocations occurring in a trace, in order. -/
def encoderCallsIn (tr : List Event) : List NativeFn :=
  tr.filterMap (fun e =>
    match e with
    | Event.call NativeFn.vips_jpegsave_bridge _ => some NativeFn.vips_jpegsave_bridge
    | Event.call NativeFn.vips_pngsave_bridge _ => some NativeFn.vips_pngsave_bridge
    | Event.call NativeFn.vips_webpsave_bridge _ => some NativeFn.vips_webpsave_bridge
    | _ => none)

/-- The argument lists of the vips_concurrency_set calls in a trace. -/
def concurrencySetCalls (tr : List Event) : List (List Int) :=
  tr.filterMap (fun e =>
    match e with
    | Event.call NativeFn.vips_concurrency_set args => some args
    | _ => none)

/-- A buffer counts as recognized exactly when it is non-empty and the
sniffed loader name carries one of the five supported suffixes — the
magic-byte recognition set of vipsImageType. -/
def recognizedFormat (bufLen : Nat) (bufferType : String) : Bool :=
  bufLen != 0 &&
    (goHasSuffix bufferType "JpegBuffer" || goHasSuffix bufferType "PngBuffer" ||
     goHasSuffix bufferType "TiffBuffer" || goHasSuffix bufferType "WebpBuffer" ||
     goHasSuffix bufferType "MagickBuffer")

/-- C1: the claim says every primitive releases its input handle exactly
once on all paths.  vipsSave violates it: when the colourspace is
convertible, vipsPreSave unrefs the input after conversion and vipsSave's
deferred unref (whose argument was captured when the defer executed)
releases the same input handle a second time, while the converted handle
is never released.  Evaluated here at input handle 5, converted handle 6:
the save trace unrefs handle 5 twice and handle 6 zero times. -/
theorem save_input_double_release :
    ((vipsSave 5
        { Quality := 80, Compression := 6, typ := ImageType.PNG,
          Interlace := false, NoProfile := false, Interpretation := 0 }
        true (NativeOutcome.ok 6) true [9] { buffer := "" }).2.2).count (Event.unref 5) = 2
    ∧ ((vipsSave 5
        { Quality := 80, Compression := 6, typ := ImageType.PNG,
          Interlace := false, NoProfile := false, Interpretation := 0 }
        true (NativeOutcome.ok 6) true [9] { buffer := "" }).2.2).count (Event.unref 6) = 0 := by
  decide

/-- C2: the claim says no handle is queried after being released; but both
buffer-level queries release the loaded handle and then pass it to the
native query bridge.  Evaluated at a recognized 4-byte JPEG buffer whose
load yields handle 7: both traces query handle 7 after unreffing it. -/
theorem buffer_queries_use_after_release :
    usesAfterRelease
      ((vipsColourspaceIsSupportedBuffer 4 "VipsForeignLoadJpegBuffer"
        (NativeOutcome.ok 7) true { buffer := "" }).2.2) [] = true
    ∧ usesAfterRelease
      ((vipsInterpretationBuffer 4 "VipsForeignLoadJpegBuffer"
        (NativeOutcome.ok 7) INTERPRETATION_sRGB { buffer := "" }).2.2) [] = true := by
  decide

/-- C3: an extract request whose width or height exceeds the maximum
supported edge length fails with the distinct size-exceeded error, the
native error state is untouched, and no native extract call appears in
the trace: the check runs before the primitive is invoked. -/
theorem extract_size_exceeded (image : Handle) (l t w h : Int)
    (outcome : NativeOutcome) (err : ErrState)
    (hover : w > MAX_SIZE ∨ h > MAX_SIZE) :
    (vipsExtract image l t w h outcome err).1
        = Except.error "Maximum image size exceeded"
    ∧ (vipsExtract image l t w h outcome err).2.1 = err
    ∧ ∀ args, Event.call NativeFn.vips_extract_area_bridge args
        ∉ (vipsExtract image l t w h outcome err).2.2 := by
  unfold vipsExtract
  rw [if_pos hover]
  refine ⟨rfl, rfl, ?_⟩
  intro args hmem
  simp at hmem

/-- C3 witness: a 16384-wide extract request fails fast with the
size-exceeded error. -/
theorem extract_size_exceeded_witness :
    (vipsExtract 1 0 0 16384 100 (NativeOutcome.ok 2) { buffer := "" }).1
      = Except.error "Maximum image size exceeded" :=
  (extract_size_exceeded 1 0 0 16384 100 (NativeOutcome.ok 2) { buffer := "" }
    (Or.inl (by decide))).1

/-- C7: for a buffer not recognized by magic-byte sniffing as one of the
supported formats (the empty buffer included), the detected type is
UNKNOWN, the read fails with the distinct unsupported-format error, the
reported type is UNKNOWN, and the trace is empty — no native handle is
created. -/
theorem unrecognized_format_read (bufLen : Nat) (bufferType : String)
    (outcome : NativeOutcome) (err : ErrState)
    (hunrec : recognizedFormat bufLen bufferType = false) :
    vipsImageType bufLen bufferType = ImageType.UNKNOWN
    ∧ (vipsRead bufLen bufferType outcome err).1
        = Except.error "Unsupported image format"
    ∧ (vipsRead bufLen bufferType outcome err).2.1 = ImageType.UNKNOWN
    ∧ (vipsRead bufLen bufferType outcome err).2.2.2 = [] := by
  have htype : vipsImageType bufLen bufferType = ImageType.UNKNOWN := by
    by_cases h0 : bufLen = 0
    · simp [vipsImageType, h0]
    · unfold recognizedFormat at hunrec
      have hb : (bufLen != 0) = true := by simp [h0]
      rw [hb, Bool.true_and] at hunrec
      simp only [Bool.or_eq_false_iff] at hunrec
      obtain ⟨⟨⟨⟨h1, h2⟩, h3⟩, h4⟩, h5⟩ := hunrec
      simp [vipsImageType, h0, h1, h2, h3, h4, h5]
  refine ⟨htype, ?_, ?_, ?_⟩ <;> simp [vipsRead, htype]

/-- C7 witness: the empty buffer is reported UNKNOWN and the read fails
with the unsupported-format error without any native call. -/
theorem unrecognized_format_read_witness :
    (vipsRead 0 "" (NativeOutcome.ok 1) { buffer := "" }).1
        = Except.error "Unsupported image format"
    ∧ (vipsRead 0 "" (NativeOutcome.ok 1) { buffer := "" }).2.2.2 = [] :=
  ⟨(unrecognized_format_read 0 "" (NativeOutcome.ok 1) { buffer := "" } (by decide)).2.1,
   (unrecognized_format_read 0 "" (NativeOutcome.ok 1) { buffer := "" } (by decide)).2.2.2⟩

/-- C4 counterexample: with no VIPS_CONCURRENCY override supplied, the
start function does not leave worker concurrency to the engine's
auto-detect — it explicitly calls vips_concurrency_set with 1. -/
theorem startup_concurrency_counterexample :
    concurrencySetCalls ((Startup "" "" { initialized := false }).2) = [[1]]
    ∧ ([[1]] : List (List Int)) ≠ [] := by
  decide

/-- C4 (amended): the start function configures maximum cache memory of
100MB and maximum cached operation count of 500; it sets worker
concurrency to 1 exactly when the VIPS_CONCURRENCY override is absent,
and makes no concurrency call when the override is supplied. -/
theorem startup_configuration (ec et : String) (s : LifecycleState) :
    Event.call NativeFn.vips_cache_set_max_mem [maxCacheMem] ∈ (Startup ec et s).2
    ∧ Event.call NativeFn.vips_cache_set_max [maxCacheSize] ∈ (Startup ec et s).2
    ∧ concurrencySetCalls ((Startup ec et s).2)
        = (if ec = "" then [[1]] else []) := by
  by_cases hc : ec = "" <;> by_cases ht : et = "" <;>
    simp [Startup, concurrencySetCalls, hc, ht]

/-- C6 counterexample: calling the start function when already
Initialized is not a no-op — its native-call trace is non-empty (it
re-runs init and re-applies the configuration). -/
theorem reinitialize_not_noop :
    (Startup "" "" { initialized := true }).2 ≠ [] := by
  decide

/-- C6 (amended): the lifecycle state is a single boolean flag (exactly
two states).  Shutdown on an Uninitialized state is a re-entrant no-op:
state unchanged, no native calls.  The start function on an Initialized
state leaves the lifecycle state Initialized but is not a no-op: it
re-runs vips_init and re-applies the cache configuration. -/
theorem lifecycle_two_states_reentrancy :
    (∀ s : LifecycleState,
      s = { initialized := true } ∨ s = { initialized := false })
    ∧ Shutdown { initialized := false } = ({ initialized := false }, [])
    ∧ (∀ ec et, (Startup ec et { initialized := true }).1 = { initialized := true }
        ∧ Event.call NativeFn.vips_init [] ∈ (Startup ec et { initialized := true }).2
        ∧ Event.call NativeFn.vips_cache_set_max_mem [maxCacheMem]
            ∈ (Startup ec et { initialized := true }).2) := by
  refine ⟨?_, rfl, ?_⟩
  · intro s
    cases s with
    | mk b =>
      cases b
      · exact Or.inr rfl
      · exact Or.inl rfl
  · intro ec et
    refine ⟨rfl, ?_, ?_⟩ <;> simp [Startup]

/-- C5: whenever a native primitive fails, the error returned to the Go
caller carries the engine's error-buffer text as it stood at the time of
failure, and the native error buffer is cleared before the call returns
— for every fallible wrapper in the binding. -/
theorem native_failure_error_text (image interp : Handle) (err : ErrState)
    (angle dir zoomF shrinkF l t w h extend : Int) (wm : Watermark)
    (o : vipsSaveOptions) (csSupported : Bool) (convOut : NativeOutcome)
    (saveBytes : List Nat) (bufLen : Nat) (bufferType : String)
    (hw : w ≤ MAX_SIZE) (hh : h ≤ MAX_SIZE)
    (hfmt : vipsImageType bufLen bufferType ≠ ImageType.UNKNOWN) :
    ((vipsRotate image angle NativeOutcome.fail err).1 = Except.error err.buffer
      ∧ (vipsRotate image angle NativeOutcome.fail err).2.1 = { buffer := "" })
    ∧ ((vipsFlip image dir NativeOutcome.fail err).1 = Except.error err.buffer
      ∧ (vipsFlip image dir NativeOutcome.fail err).2.1 = { buffer := "" })
    ∧ ((vipsZoom image zoomF NativeOutcome.fail err).1 = Except.error err.buffer
      ∧ (vipsZoom image zoomF NativeOutcome.fail err).2.1 = { buffer := "" })
    ∧ ((vipsWatermark image wm NativeOutcome.fail err).1 = Except.error err.buffer
      ∧ (vipsWatermark image wm NativeOutcome.fail err).2.1 = { buffer := "" })
    ∧ ((vipsShrink image shrinkF NativeOutcome.fail err).1 = Except.error err.buffer
      ∧ (vipsShrink image shrinkF NativeOutcome.fail err).2.1 = { buffer := "" })
    ∧ ((vipsShrinkJpeg image shrinkF NativeOutcome.fail err).1 = Except.error err.buffer
      ∧ (vipsShrinkJpeg image shrinkF NativeOutcome.fail err).2.1 = { buffer := "" })
    ∧ ((vipsEmbed image l t w h extend NativeOutcome.fail err).1 = Except.error err.buffer
      ∧ (vipsEmbed image l t w h extend NativeOutcome.fail err).2.1 = { buffer := "" })
    ∧ ((vipsAffine image interp NativeOutcome.fail err).1 = Except.error err.buffer
      ∧ (vipsAffine image interp NativeOutcome.fail err).2.1 = { buffer := "" })
    ∧ ((vipsExtract image l t w h NativeOutcome.fail err).1 = Except.error err.buffer
      ∧ (vipsExtract image l t w h NativeOutcome.fail err).2.1 = { buffer := "" })
    ∧ ((vipsRead bufLen bufferType NativeOutcome.fail err).1 = Except.error err.buffer
      ∧ (vipsRead bufLen bufferType NativeOutcome.fail err).2.2.1 = { buffer := "" })
    ∧ ((vipsPreSave image o true NativeOutcome.fail err).1 = Except.error err.buffer
      ∧ (vipsPreSave image o true NativeOutcome.fail err).2.2.1 = { buffer := "" })
    ∧ ((vipsSave image o csSupported convOut false saveBytes err).1 = Except.error err.buffer
      ∧ (vipsSave image o csSupported convOut false saveBytes err).2.1 = { buffer := "" }) := by
  have hnot : ¬(w > MAX_SIZE ∨ h > MAX_SIZE) := by
    rintro (hc | hc)
    · exact absurd hc (not_lt.mpr hw)
    · exact absurd hc (not_lt.mpr hh)
  refine ⟨?_, ?_, ?_, ?_, ?_, ?_, ?_, ?_, ?_, ?_, ?_, ?_⟩
  · exact ⟨rfl, rfl⟩
  · exact ⟨rfl, rfl⟩
  · exact ⟨rfl, rfl⟩
  · exact ⟨rfl, rfl⟩
  · exact ⟨rfl, rfl⟩
  · exact ⟨rfl, rfl⟩
  · exact ⟨rfl, rfl⟩
  · exact ⟨rfl, rfl⟩
  · unfold vipsExtract
    rw [if_neg hnot]
    exact ⟨rfl, rfl⟩
  · simp [vipsRead, hfmt, catchVipsError]
  · simp [vipsPreSave, catchVipsError]
  · cases csSupported <;> cases convOut <;>
      simp [vipsSave, vipsPreSave, catchVipsError]

/-- C5 witness: a failing rotate returns the error-buffer text that was
current at the time of failure. -/
theorem native_failure_error_text_witness :
    (vipsRotate 1 90 NativeOutcome.fail { buffer := "boom" }).1
      = Except.error "boom" := by
  exact (native_failure_error_text 1 2 { buffer := "boom" } 90 0 2 2 0 0 10 10 0
    { Text := "w", Font := "sans", Width := 1, DPI := 72, Margin := 0, Opacity := 1,
      BackgroundR := 0, BackgroundG := 0, BackgroundB := 0, NoReplicate := false }
    { Quality := 80, Compression := 6, typ := ImageType.JPEG, Interlace := false,
      NoProfile := false, Interpretation := 0 }
    true (NativeOutcome.ok 3) [9] 4 "VipsForeignLoadJpegBuffer"
    (by decide) (by decide) (by decide)).1.1

/-- C8: pre-save normalization runs before every save (its trace is a
prefix of every save trace); it strips the embedded profile exactly when
configured, attempts coercion to the configured target interpretation
(defaulting to sRGB when none is set) when the engine reports the
colourspace convertible, and silently skips the conversion — same handle
back, no error, untouched error state, no conversion call — when the
engine reports it unsupported. -/
theorem presave_normalization (image : Handle) (o : vipsSaveOptions)
    (csSupported saveOk : Bool) (convOut : NativeOutcome)
    (saveBytes : List Nat) (err : ErrState) :
    ((Event.call NativeFn.remove_profile []
        ∈ (vipsPreSave image o csSupported convOut err).2.2.2) ↔ o.NoProfile = true)
    ∧ ((vipsPreSave image o csSupported convOut err).2.1.Interpretation
        = if o.Interpretation = 0 then INTERPRETATION_sRGB else o.Interpretation)
    ∧ (csSupported = true →
        Event.call NativeFn.vips_colourspace_bridge
            [if o.Interpretation = 0 then INTERPRETATION_sRGB else o.Interpretation]
          ∈ (vipsPreSave image o csSupported convOut err).2.2.2
        ∧ ∀ out, convOut = NativeOutcome.ok out →
            (vipsPreSave image o csSupported convOut err).1 = Except.ok out)
    ∧ (csSupported = false →
        (vipsPreSave image o csSupported convOut err).1 = Except.ok image
        ∧ (vipsPreSave image o csSupported convOut err).2.2.1 = err
        ∧ ∀ args, Event.call NativeFn.vips_colourspace_bridge args
            ∉ (vipsPreSave image o csSupported convOut err).2.2.2)
    ∧ (∃ rest, (vipsSave image o csSupported convOut saveOk saveBytes err).2.2
        = (vipsPreSave image o csSupported convOut err).2.2.2 ++ rest) := by
  refine ⟨?_, ?_, ?_, ?_, ?_⟩
  · cases hn : o.NoProfile <;> cases csSupported <;> cases convOut <;>
      simp [vipsPreSave, catchVipsError, hn]
  · by_cases hi : o.Interpretation = 0 <;> cases csSupported <;> cases convOut <;>
      simp [vipsPreSave, catchVipsError, hi]
  · intro hcs
    subst hcs
    cases convOut <;> by_cases hi : o.Interpretation = 0 <;>
      simp [vipsPreSave, catchVipsError, hi]
  · intro hcs
    subst hcs
    cases hn : o.NoProfile <;> simp [vipsPreSave, hn]
  · rcases hP : vipsPreSave image o csSupported convOut err with ⟨res, o2, err2, evs⟩
    cases res with
    | error msg =>
        refine ⟨[Event.unref image], ?_⟩
        simp [vipsSave, hP]
    | ok image2 =>
        cases saveOk with
        | true =>
            refine ⟨(match o2.typ with
              | ImageType.WEBP => Event.call NativeFn.vips_webpsave_bridge [o2.Quality]
              | ImageType.PNG => Event.call NativeFn.vips_pngsave_bridge
                  [o2.Compression, o2.Quality, boolToInt o2.Interlace]
              | _ => Event.call NativeFn.vips_jpegsave_bridge
                  [o2.Quality, boolToInt o2.Interlace])
              :: [Event.call NativeFn.g_free [], Event.call NativeFn.vips_error_clear [],
                  Event.unref image], ?_⟩
            simp [vipsSave, hP]
        | false =>
            refine ⟨(match o2.typ with
              | ImageType.WEBP => Event.call NativeFn.vips_webpsave_bridge [o2.Quality]
              | ImageType.PNG => Event.call NativeFn.vips_pngsave_bridge
                  [o2.Compression, o2.Quality, boolToInt o2.Interlace]
              | _ => Event.call NativeFn.vips_jpegsave_bridge
                  [o2.Quality, boolToInt o2.Interlace])
              :: ([Event.call NativeFn.vips_error_buffer [],
                   Event.call NativeFn.vips_error_clear [],
                   Event.call NativeFn.vips_thread_shutdown []] ++ [Event.unref image]), ?_⟩
            simp [vipsSave, hP, catchVipsError]

/-- C8 witness: with an unsupported colourspace the normalization hands
the same handle back with no error. -/
theorem presave_normalization_witness :
    (vipsPreSave 3
      { Quality := 80, Compression := 6, typ := ImageType.JPEG, Interlace := false,
        NoProfile := true, Interpretation := 0 } false (NativeOutcome.ok 4)
      { buffer := "" }).1 = Except.ok 3 :=
  ((presave_normalization 3
      { Quality := 80, Compression := 6, typ := ImageType.JPEG, Interlace := false,
        NoProfile := true, Interpretation := 0 } false true (NativeOutcome.ok 4) [7]
      { buffer := "" }).2.2.2.1 rfl).1

/-- C9 counterexample: the options record handed to vipsPreSave through a
pointer is mutated during the save — with Interpretation unset (0) it
comes back with Interpretation = sRGB, a different value, refuting
"only read, never mutated". -/
theorem save_options_mutation :
    (vipsPreSave 1
      { Quality := 80, Compression := 6, typ := ImageType.PNG, Interlace := false,
        NoProfile := false, Interpretation := 0 } true (NativeOutcome.ok 2)
      { buffer := "" }).2.1
    ≠ { Quality := 80, Compression := 6, typ := ImageType.PNG, Interlace := false,
        NoProfile := false, Interpretation := 0 } := by
  decide

/-- C9 (amended): the only mutation a save performs on the options record
is vipsPreSave defaulting the Interpretation field to sRGB when it is
unset; every other field, and the whole record when Interpretation is
already set, is only read.  (The caller's own copy is unaffected because
vipsSave receives the options by value.) -/
theorem save_options_mutation_extent (image : Handle) (o : vipsSaveOptions)
    (cs : Bool) (conv : NativeOutcome) (err : ErrState) :
    (vipsPreSave image o cs conv err).2.1
      = if o.Interpretation = 0 then { o with Interpretation := INTERPRETATION_sRGB }
        else o := by
  cases cs <;> cases conv <;> simp [vipsPreSave, catchVipsError]

/-- C10: a save whose requested output type is neither PNG nor WEBP —
TIFF, MAGICK, JPEG and UNKNOWN alike — invokes exactly the JPEG encoder
(no PNG or WEBP encoder call), and succeeds when the encoder does, rather
than failing or preserving the requested type. -/
theorem save_defaults_to_jpeg (image out : Handle) (o : vipsSaveOptions)
    (cs saveOk : Bool) (saveBytes : List Nat) (err : ErrState)
    (hp : o.typ ≠ ImageType.PNG) (hwp : o.typ ≠ ImageType.WEBP) :
    encoderCallsIn ((vipsSave image o cs (NativeOutcome.ok out) saveOk saveBytes err).2.2)
      = [NativeFn.vips_jpegsave_bridge]
    ∧ (saveOk = true →
        (vipsSave image o cs (NativeOutcome.ok out) saveOk saveBytes err).1
          = Except.ok saveBytes) := by
  cases ht : o.typ <;>
    first
      | exact absurd ht hp
      | exact absurd ht hwp
      | (by_cases hi : o.Interpretation = 0 <;> cases hn : o.NoProfile <;>
          cases cs <;> cases saveOk <;>
          simp [vipsSave, vipsPreSave, encoderCallsIn, catchVipsError, hi, hn, ht])

/-- C10 witness: a TIFF-typed save request is encoded with the JPEG
encoder and succeeds. -/
theorem save_defaults_to_jpeg_witness :
    encoderCallsIn ((vipsSave 1
      { Quality := 75, Compression := 6, typ := ImageType.TIFF, Interlace := false,
        NoProfile := false, Interpretation := 0 } false (NativeOutcome.ok 2) true [7]
      { buffer := "" }).2.2) = [NativeFn.vips_jpegsave_bridge] :=
  (save_defaults_to_jpeg 1 2
    { Quality := 75, Compression := 6, typ := ImageType.TIFF, Interlace := false,
      NoProfile := false, Interpretation := 0 } false true [7] { buffer := "" }
    (by decide) (by decide)).1

end Bimg
